import Mathlib

/-!
Shallow embedding of the Sky Fruit Catcher game core (gameEngine.js, second
revision) and its rule-based opponent (aiEngine.js).

The JavaScript engine is single-threaded; DOM rendering is dropped and the
observable side effects are modelled explicitly:
  * `setInterval`/`requestAnimationFrame`/`setTimeout` handles become state
    fields: `gameTimerOn` (1 Hz countdown interval), `loopOn` (animation
    frame loop), `pendingGunOffs` (scheduled 10 s gun-deactivation
    timeouts, identified by their deadline), `pendingBullets` (scheduled
    200 ms bullet-impact timeouts, identified by the target item id) and
    `pendingBossStart` (the 100 ms boss-start timeout from `start`).
    Firing a scheduled callback is an explicit transition (`fireGunOff`,
    `fireBulletCallback`, `fireBossStart`, `tick1Hz`).
  * the `onGameEnd` callback and `showFeedback` messages are recorded in an
    `events` list.
  * `Math.random()` draws are passed in as rational parameters in [0,1).
Numbers are rationals (item positions, speeds, boss position) or naturals /
integers (scores, levels, boss HP — an `Int`, since the source can drive it
negative).
-/

unseal Rat.add Rat.mul Rat.sub Rat.inv Rat.ofScientific

set_option maxRecDepth 8000

namespace Engine

/-- `String.prototype.toLowerCase()` (ASCII case mapping suffices for the
keys the handler compares against). -/
def toLowerCase (s : String) : String := String.mk (s.data.map Char.toLower)

inductive ItemType where
  | apple
  | banana
  | dragon
  | bomb
  | rocket
deriving DecidableEq

structure Item where
  id : Nat
  type : ItemType
  lane : Nat
  y : ℚ
  speed : ℚ
  score : Nat
  isTargeted : Bool := false
deriving DecidableEq

structure BossEnt where
  x : ℚ
  direction : Int
deriving DecidableEq

inductive Reward where
  | plain
  | life
  | gun
deriving DecidableEq

inductive GEvent where
  | feedback (msg : String)
  | gameEnd (score : Nat) (level : Nat) (isVictory : Bool)
deriving DecidableEq

structure Config where
  reward : Reward := Reward.plain
  startLevel : Nat := 0
  isInputEnabled : Option Bool := none
deriving DecidableEq

structure GameState where
  score : Nat := 0
  level : Nat := 1
  timeLimit : Nat := 60
  isGameActive : Bool := false
  playerPos : Nat := 1
  items : List Item := []
  itemIdCounter : Nat := 0
  spawnRate : Nat := 1500
  baseSpeed : Nat := 3
  missedCount : Nat := 0
  maxMisses : Nat := 2
  spawningPaused : Bool := false
  bombsSpawnedInLevel : Nat := 0
  isBossActive : Bool := false
  bossHP : Int := 15
  bossMaxHP : Nat := 15
  bossEntity : Option BossEnt := none
  gunActive : Bool := false
  hasGun : Bool := false
  gunTimer : Option Nat := none
  devGunMode : Bool := false
  isInputEnabled : Bool := true
  isInvincible : Bool := false
  gameTimerOn : Bool := false
  loopOn : Bool := false
  handlerOn : Bool := false
  pendingGunOffs : List Nat := []
  pendingBullets : List Nat := []
  pendingBossStart : Bool := false
  events : List GEvent := []
deriving DecidableEq

def initState : GameState := {}

def pushFeedback (msg : String) (s : GameState) : GameState :=
  { s with events := s.events ++ [GEvent.feedback msg] }

/-- `stop(reason, isVictory)`: no-op if inactive; marks inactive, clears the
countdown interval and the animation frame, removes the key listener, shows
the reason, fires `onGameEnd`.  The gun timeout, bullet timeouts and the
boss-start timeout are NOT cleared. -/
def stop (reason : String) (isVictory : Bool) (s : GameState) : GameState :=
  if s.isGameActive = false then s else
  { s with isGameActive := false, gameTimerOn := false, loopOn := false,
           handlerOn := false,
           events := s.events ++ [GEvent.feedback reason,
                                  GEvent.gameEnd s.score s.level isVictory] }

/-- `victory()`: unguarded; marks inactive, clears interval and frame,
removes the key listener, fires `onGameEnd(..., true, this)`.  It does not
reset `isBossActive`. -/
def victory (s : GameState) : GameState :=
  { s with isGameActive := false, gameTimerOn := false, loopOn := false,
           handlerOn := false,
           events := s.events ++ [GEvent.gameEnd s.score s.level true] }

/-- `damageBoss()`: returns if the boss is inactive, decrements `bossHP`,
and calls `victory()` once `bossHP <= 0`. -/
def damageBoss (s : GameState) : GameState :=
  if s.isBossActive = false then s else
  let s1 := { s with bossHP := s.bossHP - 1 }
  if s1.bossHP ≤ 0 then victory s1 else s1

/-- `startBossFight()`: no-op if already active; sets boss mode, spawn rate
700 ms, base speed 11, and creates the boss entity at x = 50 moving right. -/
def startBossFight (s : GameState) : GameState :=
  if s.isBossActive = true then s else
  { s with isBossActive := true, spawningPaused := false, spawnRate := 700,
           baseSpeed := 11,
           bossEntity := some { x := 50, direction := 1 },
           events := s.events ++ [GEvent.feedback "BOSS FIGHT! 🐉\nCatch Rockets!"] }

/-- `addScore(points)`: adds to the score, recomputes the level, and on a
level increase (once per call) resets the bomb counter, bumps `baseSpeed`
when the new level is at most 9, resets `timeLimit`, and either starts the
boss fight (new level at least 15) or lowers `spawnRate` by 100 while it
exceeds 500. -/
def addScore (points : Nat) (s : GameState) : GameState :=
  let s0 := { s with score := s.score + points }
  let newLevel := s0.score / 1000 + 1
  if s0.level < newLevel then
    let s1 := { s0 with level := newLevel, bombsSpawnedInLevel := 0 }
    let s2 := if s1.level ≤ 9 then { s1 with baseSpeed := s1.baseSpeed + 1 } else s1
    let s3 := { s2 with timeLimit := 60 }
    if 15 ≤ s3.level ∧ s3.isBossActive = false then startBossFight s3
    else if s3.isBossActive = false then
      (if s3.level ≤ 9 ∧ 500 < s3.spawnRate then { s3 with spawnRate := s3.spawnRate - 100 }
       else s3)
    else s3
  else s0

/-- `handleCollision(item, index)`: removes the item at `index`, then either
damages the boss (rocket), stops the session (bomb with gun inactive and not
invincible), blocks harmlessly (bomb while invincible), or scores (200 for a
bomb destroyed by the gun, otherwise the item's own value). -/
def handleCollisionAt (i : Nat) (s : GameState) : GameState :=
  match s.items.get? i with
  | none => s
  | some item =>
    let s1 := { s with items := s.items.eraseIdx i }
    if item.type = ItemType.rocket then
      pushFeedback "ATTACK! 💥" (damageBoss s1)
    else if item.type = ItemType.bomb ∧ s1.gunActive = false ∧ s1.isInvincible = false then
      stop "BOMB! Game Over" false s1
    else if item.type = ItemType.bomb ∧ s1.isInvincible = true then
      pushFeedback "🛡️ BLOCKED!" s1
    else
      let points := if item.type = ItemType.bomb ∧ s1.gunActive = true then 200 else item.score
      addScore points s1

/-- Hitbox test from `checkCollisions`: the player band is 420..480 with a
10 px inset on both edges, so an item (60 px tall, top at `y`) collides when
`y + 60 > 430` and `y < 470`, in the player's lane. -/
def collides (item : Item) (playerPos : Nat) : Bool :=
  decide (item.lane = playerPos ∧ 430 < item.y + 60 ∧ item.y < 470)

/-- The `checkCollisions` loop runs the index `i` from `items.length - 1`
down to 0 on the evolving array; `handleCollision` splices only the current
index, so lower indices are unaffected.  The loop has no early exit: it
keeps resolving items even after a `stop()` or `victory()` fired mid-pass. -/
def checkCollisionsAux (s : GameState) : Nat → GameState
  | 0 => s
  | n + 1 =>
    let s' := match s.items.get? n with
      | none => s
      | some item => if collides item s.playerPos then handleCollisionAt n s else s
    checkCollisionsAux s' n

def checkCollisions (s : GameState) : GameState :=
  checkCollisionsAux s s.items.length

/-- `activateGun()`: unguarded; sets `gunActive`, clears a previously
scheduled deactivation timeout if the `gunTimer` field still points at one,
and schedules a new deactivation 10 000 ms from `now`. -/
def activateGun (now : Nat) (s : GameState) : GameState :=
  let s1 := pushFeedback "Auto Gun! 🔫" { s with gunActive := true }
  let s2 := match s1.gunTimer with
    | some d => { s1 with pendingGunOffs := s1.pendingGunOffs.erase d }
    | none => s1
  { s2 with pendingGunOffs := s2.pendingGunOffs ++ [now + 10000],
            gunTimer := some (now + 10000) }

/-- The gun-deactivation timeout body: fires only if still scheduled; sets
`gunActive := false` and nulls the `gunTimer` field.  It does not check
`isGameActive`. -/
def fireGunOff (d : Nat) (s : GameState) : GameState :=
  if d ∈ s.pendingGunOffs then
    pushFeedback "Gun End"
      { s with gunActive := false, gunTimer := none,
               pendingGunOffs := s.pendingGunOffs.erase d }
  else s

/-- The keydown handler installed by `start`: processes one key.  Handles
the weapon key (guarded by ownership / dev mode and by `gunActive`, and
consuming ownership unless dev mode) and the lane keys. -/
def handleKey (key : String) (now : Nat) (s : GameState) : GameState :=
  if s.handlerOn = false then s else
  if s.isGameActive = false ∨ s.isInputEnabled = false then s else
  let canUseGun := (s.hasGun = true ∨ s.devGunMode = true) ∧ s.gunActive = false
  let s1 := if (key = "w" ∨ key = "W" ∨ key = "ㅈ") ∧ canUseGun then
      (let sg := activateGun now s
       if sg.devGunMode = false then { sg with hasGun := false } else sg)
    else s
  let k := toLowerCase key
  let target := if k = "a" ∨ k = "ㅁ" then 0
    else if k = "s" ∨ k = "ㄴ" then 1
    else if k = "d" ∨ k = "ㅇ" then 2
    else s1.playerPos
  if target ≠ s1.playerPos then { s1 with playerPos := target } else s1

/-- `start(config)`: no-op while active; resets the session state.  Note
that the source nulls the `gunTimer` field without `clearTimeout`, so a
pending deactivation timeout from a previous session stays scheduled, and
that the `items` array is not cleared (only the DOM nodes are). -/
def start (config : Config) (s : GameState) : GameState :=
  if s.isGameActive = true then s else
  let level := if config.startLevel = 0 then 1 else config.startLevel
  let levelCap := min level 9
  { s with
    isGameActive := true,
    isInputEnabled := config.isInputEnabled.getD true,
    level := level,
    score := (level - 1) * 1000,
    timeLimit := 60,
    playerPos := 1,
    missedCount := 0,
    spawningPaused := false,
    bombsSpawnedInLevel := 0,
    baseSpeed := 3 + (levelCap - 1),
    spawnRate := 1500 - (levelCap - 1) * 100,
    isBossActive := false,
    bossHP := 15,
    bossMaxHP := 15,
    bossEntity := none,
    maxMisses := if config.reward = Reward.life then 3 else 2,
    gunActive := false,
    hasGun := decide (config.reward = Reward.gun),
    gunTimer := none,
    pendingBossStart := decide (15 ≤ level),
    handlerOn := true,
    gameTimerOn := true,
    loopOn := true,
    events := s.events ++ (match config.reward with
      | Reward.life => [GEvent.feedback "Bonus Life Active! ❤️"]
      | Reward.gun => [GEvent.feedback "Gun Ready! Press W 🔫"]
      | Reward.plain => []) }

/-- The 100 ms boss-check timeout scheduled by `start` when the start level
is at least 15; the callback calls `startBossFight` unconditionally. -/
def fireBossStart (s : GameState) : GameState :=
  if s.pendingBossStart = true then startBossFight { s with pendingBossStart := false }
  else s

/-- The 1 Hz interval body from `startTimer`: while the boss is inactive it
decrements the (clamped) countdown and stops with "Time Over!" at zero; the
interval only runs while scheduled (`gameTimerOn`). -/
def tick1Hz (s : GameState) : GameState :=
  if s.gameTimerOn = false then s else
  if s.isBossActive = true then s else
  let s1 := { s with timeLimit := s.timeLimit - 1 }
  if s1.timeLimit = 0 then stop "Time Over!" false s1 else s1

/-- The bullet-impact timeout scheduled by `fireBullet`: 200 ms later it
looks the item up by id and resolves it through `handleCollision`, with no
`isGameActive` check. -/
def fireBulletCallback (id : Nat) (s : GameState) : GameState :=
  if id ∈ s.pendingBullets then
    let s1 := { s with pendingBullets := s.pendingBullets.erase id }
    match s1.items.findIdx? (fun it => it.id == id) with
    | some idx => handleCollisionAt idx s1
    | none => s1
  else s

/-- One iteration of the `updateItems` loop at index `i`.  Returns the new
state and whether the loop aborted (the miss-limit `stop` returns from the
whole function before removing the item). -/
def updateItemAt (s : GameState) (i : Nat) : GameState × Bool :=
  match s.items.get? i with
  | none => (s, false)
  | some item =>
    if s.gunActive = true ∧ 0 < item.y then
      (if item.isTargeted = true then (s, false)
       else ({ s with items := s.items.set i { item with isTargeted := true },
                      pendingBullets := s.pendingBullets ++ [item.id] }, false))
    else
      let item1 := { item with y := item.y + item.speed }
      let s1 := { s with items := s.items.set i item1 }
      if 500 < item1.y then
        if item1.type ≠ ItemType.bomb ∧ item1.type ≠ ItemType.rocket ∧
            s1.isInvincible = false then
          let s2 := pushFeedback "Missed!" { s1 with missedCount := s1.missedCount + 1 }
          if s2.maxMisses ≤ s2.missedCount then (stop "Game Over!" false s2, true)
          else ({ s2 with items := s2.items.eraseIdx i }, false)
        else ({ s1 with items := s1.items.eraseIdx i }, false)
      else (s1, false)

def updateItemsAux (s : GameState) : Nat → GameState
  | 0 => s
  | n + 1 =>
    let r := updateItemAt s n
    if r.2 = true then r.1 else updateItemsAux r.1 n

def updateItems (s : GameState) : GameState :=
  updateItemsAux s s.items.length

/-- `updateBossMovement` on the boss entity: step by `direction * 0.5`, then
flip the direction if the new position left (10, 90). -/
def moveBoss (b : BossEnt) : BossEnt :=
  let x' := b.x + (b.direction : ℚ) * (1 / 2)
  { x := x',
    direction := if 90 < x' ∨ x' < 10 then -b.direction else b.direction }

def updateBossMovement (s : GameState) : GameState :=
  match s.bossEntity with
  | some b => { s with bossEntity := some (moveBoss b) }
  | none => s

/-- `Math.floor(Math.random() * 3)` for a uniform draw `r` in [0,1). -/
def jsRandLane (r : ℚ) : Nat := (Int.floor (r * 3)).toNat

/-- Lane choice in `spawnItem`: determined by the boss's horizontal third
while the boss is active, uniformly random otherwise. -/
def spawnLane (s : GameState) (r : ℚ) : Nat :=
  match s.bossEntity with
  | some b =>
    if s.isBossActive = true then
      (if b.x < 33 then 0 else if b.x < 66 then 1 else 2)
    else jsRandLane r
  | none => jsRandLane r

/-- Type/score roll in `spawnItem` (before the bomb cap): boss mode is 30%
rocket, 30% bomb, rest split 50/30/20 over the fruits; normal mode is
50/30/10/10. -/
def spawnType (s : GameState) (rType rFruit : ℚ) : ItemType × Nat :=
  if s.isBossActive = true then
    if rType < 3 / 10 then (ItemType.rocket, 0)
    else if rType < 6 / 10 then (ItemType.bomb, 0)
    else if rFruit < 1 / 2 then (ItemType.apple, 100)
    else if rFruit < 8 / 10 then (ItemType.banana, 200)
    else (ItemType.dragon, 300)
  else
    if rType < 1 / 2 then (ItemType.apple, 100)
    else if rType < 8 / 10 then (ItemType.banana, 200)
    else if rType < 9 / 10 then (ItemType.dragon, 300)
    else (ItemType.bomb, 0)

/-- `spawnItem`: picks a lane and type, applies the per-level bomb cap of 5
(substituting the common fruit), and appends the new item. -/
def spawnItem (rLane rType rFruit rJitter : ℚ) (s : GameState) : GameState :=
  let lane := spawnLane s rLane
  let ts := spawnType s rType rFruit
  let chosen := if ts.1 = ItemType.bomb then
      (if 5 ≤ s.bombsSpawnedInLevel then (ItemType.apple, 100) else ts)
    else ts
  let s1 := if ts.1 = ItemType.bomb ∧ s.bombsSpawnedInLevel < 5 then
      { s with bombsSpawnedInLevel := s.bombsSpawnedInLevel + 1 }
    else s
  let item : Item := {
    id := s1.itemIdCounter,
    type := chosen.1,
    lane := lane,
    y := if s1.isBossActive = true then 60 else -60,
    speed := (s1.baseSpeed : ℚ) + rJitter,
    score := chosen.2,
    isTargeted := false }
  { s1 with items := s1.items ++ [item], itemIdCounter := s1.itemIdCounter + 1 }

/-- Pose-label decoding in `onPoseDetected` (English and Korean labels);
anything else keeps the current position. -/
def poseTarget (label : String) (current : Nat) : Nat :=
  if label = "Left" ∨ label = "왼쪽" then 0
  else if label = "Center" ∨ label = "가운데" ∨ label = "중앙" then 1
  else if label = "Right" ∨ label = "오른쪽" then 2
  else current

/-- `onPoseDetected(poseLabel)`: only gated on `isGameActive` (the
`isInputEnabled` flag is not consulted on this path). -/
def onPoseDetected (label : String) (s : GameState) : GameState :=
  if s.isGameActive = false then s else
  let target := poseTarget label s.playerPos
  if target ≠ s.playerPos then { s with playerPos := target } else s

/-! ### The AI opponent (aiEngine.js) -/

inductive Difficulty where
  | easy
  | medium
  | hard
  | hell
deriving DecidableEq

def reactionTime : Difficulty → Nat
  | Difficulty.easy => 800
  | Difficulty.medium => 500
  | Difficulty.hard => 200
  | Difficulty.hell => 50

def errorRate : Difficulty → ℚ
  | Difficulty.easy => 3 / 10
  | Difficulty.medium => 1 / 10
  | Difficulty.hard => 0
  | Difficulty.hell => 0

def minSurvivorLevel : Difficulty → Nat
  | Difficulty.easy => 2
  | Difficulty.medium => 5
  | Difficulty.hard => 8
  | Difficulty.hell => 12

/-- Stable insertion step for sorting items by `y` descending: the inserted
element goes before the first element whose `y` is at most its own, so
elements earlier in the original list precede later elements with the same
`y` — matching the (stable) `Array.prototype.sort((a, b) => b.y - a.y)`. -/
def insertDesc (x : Item) : List Item → List Item
  | [] => [x]
  | y :: ys => if y.y ≤ x.y then x :: y :: ys else y :: insertDesc x ys

def sortDesc : List Item → List Item
  | [] => []
  | x :: xs => insertDesc x (sortDesc xs)

/-- Stable insertion step for sorting `(lane, score)` pairs by score
descending, matching `laneScores.sort((a, b) => b.score - a.score)`. -/
def insertScoreDesc (x : Nat × Int) : List (Nat × Int) → List (Nat × Int)
  | [] => [x]
  | y :: ys => if y.2 ≤ x.2 then x :: y :: ys else y :: insertScoreDesc x ys

def sortScoresDesc : List (Nat × Int) → List (Nat × Int)
  | [] => []
  | x :: xs => insertScoreDesc x (sortScoresDesc xs)

/-- The per-item value used in the lane evaluation of `decideMove`. -/
def typeScore (it : Item) : Int :=
  if it.type = ItemType.bomb then -1000
  else if it.type = ItemType.rocket then 500
  else (it.score : Int)

/-- The reachable window of `decideMove`: items with `0 < y < 420`, sorted
nearest-to-the-bottom first. -/
def aiWindow (s : GameState) : List Item :=
  sortDesc (s.items.filter (fun it => decide (it.y < 420 ∧ 0 < it.y)))

/-- Lane evaluation: the first (lowest) window item in the lane decides the
lane's score; an empty lane scores 0. -/
def laneScoreOf (window : List Item) (lane : Nat) : Int :=
  match window.find? (fun it => it.lane == lane) with
  | none => 0
  | some it => typeScore it

def moveTo (lane : Nat) (s : GameState) : GameState :=
  if s.playerPos ≠ lane then { s with playerPos := lane } else s

/-- Step 1 of `decideMove`: grant invincibility below the difficulty's
minimum survivor level, withdraw it otherwise. -/
def aiInvinc (d : Difficulty) (s : GameState) : GameState :=
  { s with isInvincible := decide (s.level < minSurvivorLevel d) }

/-- The best `(lane, score)` pair: the score-sorted lane list's head (the
stable sort leaves the first maximum — the lowest lane index — in front). -/
def aiBest (s : GameState) : Nat × Int :=
  (sortScoresDesc ([0, 1, 2].map (fun lane => (lane, laneScoreOf (aiWindow s) lane)))).headD
    (0, 0)

/-- Target-lane choice of `decideMove`: an error roll picks a random lane;
otherwise the best lane is taken unless its score is below -500 (then the
player stays put). -/
def aiTarget (d : Difficulty) (rErr rLane : ℚ) (s : GameState) : Nat :=
  if s.isInvincible = false ∧ rErr < errorRate d then (Int.floor (rLane * 3)).toNat
  else if (aiBest s).2 < -500 then s.playerPos
  else (aiBest s).1

/-- Gun step of `decideMove` (hard/hell only): when a bomb is visible and
the gun is owned or dev mode is on, activate the gun — the first call is
unconditional, so an already-running gun timer is re-armed, and the AI never
clears `hasGun`. -/
def aiGun (d : Difficulty) (now : Nat) (s : GameState) : GameState :=
  if d = Difficulty.hell ∨ d = Difficulty.hard then
    (if (aiWindow s).any (fun it => it.type == ItemType.bomb) ∧
        (s.hasGun = true ∨ s.devGunMode = true) then
      (let s1 := activateGun now s
       if s1.gunActive = false then activateGun now s1 else s1)
     else s)
  else s

/-- `AIEngine.decideMove()`: no-op while the session is inactive; otherwise
set invincibility, and if the window is empty stay (hell recenters), else
issue the move chosen by `aiTarget` after the gun step. -/
def decideMove (d : Difficulty) (now : Nat) (rErr rLane : ℚ) (s : GameState) : GameState :=
  if s.isGameActive = false then s else
  let s1 := aiInvinc d s
  if (aiWindow s1).length = 0 then
    (if d = Difficulty.hell then moveTo 1 s1 else s1)
  else
    moveTo (aiTarget d rErr rLane s1) (aiGun d now s1)

/-! ### Definitions taken from the specification's wording (for comparison
with the source-derived ones) -/

/-- First element attaining the maximal `y` (the nearest item; earlier
elements win ties). -/
def firstMaxY : List Item → Option Item
  | [] => none
  | x :: xs =>
    match firstMaxY xs with
    | none => some x
    | some z => if x.y < z.y then some z else some x

/-- Modelled from the spec: the reachable window "0 < verticalPosition <
420". -/
def specWindow (items : List Item) : List Item :=
  items.filter (fun it => decide (0 < it.y ∧ it.y < 420))

/-- Modelled from the spec: lane scoring — empty 0, bomb -1000, rocket
+500, fruit its point value, judged on the nearest window item in the
lane. -/
def specLaneScore (items : List Item) (lane : Nat) : Int :=
  match firstMaxY ((specWindow items).filter (fun it => it.lane == lane)) with
  | none => 0
  | some it => typeScore it

/-- Modelled from the spec: the best-scoring lane, ties broken toward the
lowest lane index. -/
def specBestLane (items : List Item) : Nat :=
  if specLaneScore items 1 ≤ specLaneScore items 0 ∧
     specLaneScore items 2 ≤ specLaneScore items 0 then 0
  else if specLaneScore items 2 ≤ specLaneScore items 1 then 1
  else 2

/-! ### Small string utilities (case-insensitive containment, used to state
"the reason contains the word bomb") -/

def subAt : List Char → List Char → Bool
  | [], _ => true
  | _ :: _, [] => false
  | p :: ps, c :: cs => p == c && subAt ps cs

def hasSub (pat : List Char) : List Char → Bool
  | [] => subAt pat []
  | c :: cs => subAt pat (c :: cs) || hasSub pat cs

/-- `containsWord w r`: the lowercased rendering of `r` contains `w`. -/
def containsWord (w r : String) : Bool :=
  hasSub w.toList (toLowerCase r).toList

/-- Number of `onGameEnd` invocations with `isVictory = true` recorded in an
event log. -/
def countVictories (evts : List GEvent) : Nat :=
  (evts.filter (fun e => match e with
    | GEvent.gameEnd _ _ true => true
    | _ => false)).length

/-! ### Concrete states used by counterexamples and witnesses -/

/-- A bomb sitting high in lane 0. -/
def bombHigh (idv lanev : Nat) : Item :=
  { id := idv, type := ItemType.bomb, lane := lanev, y := 100, speed := 3, score := 0 }

/-- Mid-boss-fight state with 1 HP left and two rockets overlapping the
player hitbox in the player's lane within the same tick. -/
def sTwoRockets : GameState :=
  { isGameActive := true, level := 15, score := 14000, timeLimit := 42,
    spawnRate := 700, baseSpeed := 11, isBossActive := true, bossHP := 1,
    bossEntity := some { x := 50, direction := 1 }, playerPos := 1,
    items := [{ id := 7, type := ItemType.rocket, lane := 1, y := 400, speed := 11, score := 0 },
              { id := 8, type := ItemType.rocket, lane := 1, y := 405, speed := 11, score := 0 }],
    gameTimerOn := true, loopOn := true, handlerOn := true }

/-- A run of the public operations: start with the gun reward, press W,
spawn one item, run 22 animation frames (the gun claims the item on the
last one, leaving a bullet timeout in flight), then stop. -/
def runGun1 : GameState := start { reward := Reward.gun } initState
def runGun2 : GameState := handleKey "w" 0 runGun1
def runGun3 : GameState := spawnItem 0 0 0 0 runGun2
def runGun4 : GameState := updateItems^[22] runGun3
def runGun5 : GameState := stop "Stopped" false runGun4

/-- Fresh default-config session (level 1, score 0). -/
def startedState : GameState := start {} initState

/-- Session started with keyboard/pose input disabled. -/
def sInputOff : GameState := start { isInputEnabled := some false } initState

/-- Active session, gun currently running with its deactivation scheduled
at 7000, gun still owned, a bomb on screen; the AI's prey. -/
def sAiGun : GameState :=
  { isGameActive := true, level := 8, playerPos := 1, items := [bombHigh 0 0],
    hasGun := true, gunActive := true, gunTimer := some 7000,
    pendingGunOffs := [7000], gameTimerOn := true, loopOn := true, handlerOn := true }

/-- Active session with a bomb in each of the three lanes. -/
def sAllBombs : GameState :=
  { isGameActive := true, level := 8, playerPos := 1,
    items := [bombHigh 0 0, bombHigh 1 1, bombHigh 2 2],
    gameTimerOn := true, loopOn := true, handlerOn := true }

/-- Scenario D state: a bomb in lane 0, a 300-point fruit in lane 1, lane 2
empty, player currently in lane 2. -/
def sScenarioD : GameState :=
  { isGameActive := true, level := 8, playerPos := 2,
    items := [bombHigh 0 0,
              { id := 1, type := ItemType.dragon, lane := 1, y := 90, speed := 3, score := 300 }],
    gameTimerOn := true, loopOn := true, handlerOn := true }

/-- Active non-boss session at level 15 (as `addScore` sees it just before
calling `startBossFight`). -/
def sPreBoss : GameState :=
  { isGameActive := true, level := 15, score := 14000,
    gameTimerOn := true, loopOn := true, handlerOn := true }

/-- The boss entity as `startBossFight` creates it. -/
def bossInit : BossEnt := { x := 50, direction := 1 }

/-- Boss-active session (boss halfway across). -/
def sBossMid : GameState :=
  { isGameActive := true, level := 15, score := 14000, isBossActive := true,
    spawnRate := 700, baseSpeed := 11, bossEntity := some bossInit,
    playerPos := 1, gameTimerOn := true, loopOn := true, handlerOn := true }

/-- Active session with a bomb at index 0 reaching the hitbox. -/
def sBombHit : GameState :=
  { isGameActive := true, playerPos := 0,
    items := [{ id := 0, type := ItemType.bomb, lane := 0, y := 400, speed := 3, score := 0 }],
    gameTimerOn := true, loopOn := true, handlerOn := true }

/-- Same, but with the gun running. -/
def sBombHitGun : GameState := { sBombHit with gunActive := true }

/-- Same, but invincible (and the gun also running, for the precedence
check). -/
def sBombHitInv : GameState := { sBombHit with gunActive := true, isInvincible := true }

/-- Inductive invariant of the boss walk: the position stays in
[9.5, 90.5], and whenever it has overshot a boundary the direction already
points back inward. -/
def BossInv (b : BossEnt) : Prop :=
  19 / 2 ≤ b.x ∧ b.x ≤ 181 / 2 ∧ (90 < b.x → b.direction = -1) ∧
  (b.x < 10 → b.direction = 1) ∧ (b.direction = 1 ∨ b.direction = -1)

/-! The theorems below settle the spec claims against the embedding. -/

/-- Claim C2 (code bug): with boss HP 1 and two rockets overlapping the
player hitbox in the same tick, one `checkCollisions` pass drives the boss
HP to -1 and fires the victory `onGameEnd` twice — `victory()` neither
clears `isBossActive` nor guards against re-entry, so the claimed
invariants (HP never below 0, victory exactly once) fail. -/
theorem boss_double_victory_bug :
    sTwoRockets.bossHP = 1 ∧ countVictories sTwoRockets.events = 0 ∧
    (checkCollisions sTwoRockets).bossHP = -1 ∧
    countVictories (checkCollisions sTwoRockets).events = 2 := by decide

/-- Claim C1 counterexample: after `start` with the gun reward, pressing W
and letting the gun claim one spawned item, `stop()` leaves both the
10-second gun timeout and the in-flight bullet timeout scheduled; firing
them after the session is inactive still clears `gun.active` and still
resolves and scores the item. -/
theorem stop_leaves_gun_timer_cex :
    runGun5.isGameActive = false ∧ runGun5.gunActive = true ∧
    runGun5.score = 0 ∧ runGun5.pendingGunOffs = [10000] ∧
    runGun5.pendingBullets = [0] ∧
    (fireGunOff 10000 runGun5).gunActive = false ∧
    (fireBulletCallback 0 runGun5).score = 100 ∧
    (fireBulletCallback 0 runGun5).isGameActive = false := by decide

/-- Claim C4 counterexample: a single `addScore(2000)` call from a fresh
level-1 session raises the level by two but bumps `baseSpeed` only once
(3 to 4, not 5) and lowers `spawnRate` only once (1500 to 1400, not
1300). -/
theorem addScore_multi_level_cex :
    startedState.level = 1 ∧ startedState.baseSpeed = 3 ∧
    startedState.spawnRate = 1500 ∧
    (addScore 2000 startedState).level = 3 ∧
    (addScore 2000 startedState).baseSpeed = 4 ∧
    (addScore 2000 startedState).spawnRate = 1400 ∧
    ¬((addScore 2000 startedState).baseSpeed =
        startedState.baseSpeed +
          ((addScore 2000 startedState).level - startedState.level)) := by decide

/-- Claim C5 counterexample: the AI's gun step calls `activateGun()` while
the gun is already active; the 10-second deactivation timer is re-armed
(deadline 7000 becomes 15000) and ownership (`hasGun`) is not consumed. -/
theorem ai_gun_reactivation_cex :
    sAiGun.gunActive = true ∧ sAiGun.hasGun = true ∧
    sAiGun.gunTimer = some 7000 ∧
    (decideMove Difficulty.hard 5000 (1 / 2) 0 sAiGun).gunTimer = some 15000 ∧
    (decideMove Difficulty.hard 5000 (1 / 2) 0 sAiGun).pendingGunOffs = [15000] ∧
    (decideMove Difficulty.hard 5000 (1 / 2) 0 sAiGun).hasGun = true := by decide

/-- Claim C6 counterexample: with a bomb in every lane (errorRate 0,
difficulty hard) the best-scoring lane under the claimed tie-break is lane
0, but `decideMove` leaves the player in lane 1 because the best score
-1000 is below the -500 panic threshold. -/
theorem ai_all_bomb_stay_cex :
    errorRate Difficulty.hard = 0 ∧ sAllBombs.isGameActive = true ∧
    specBestLane sAllBombs.items = 0 ∧
    (decideMove Difficulty.hard 0 (1 / 2) (1 / 2) sAllBombs).playerPos = 1 ∧
    (decideMove Difficulty.hard 0 (1 / 2) (1 / 2) sAllBombs).playerPos ≠
      specBestLane sAllBombs.items := by decide

/-- Claim C7 counterexample: the boss entity starts at x = 50 moving right
(as `startBossFight` creates it) and after 81 `move()` steps sits at
x = 90.5, outside the claimed [10, 90] band. -/
theorem boss_overshoot_cex :
    (startBossFight sPreBoss).bossEntity = some bossInit ∧
    (moveBoss^[81] bossInit).x = 181 / 2 ∧
    ¬((moveBoss^[81] bossInit).x ≤ 90) := by decide

/-- Claim C8 counterexample: a session started with `isInputEnabled =
false` still honours `onPoseDetected("Left")` — the pose path never checks
the input-enabled flag. -/
theorem pose_ignores_input_flag_cex :
    sInputOff.isInputEnabled = false ∧ sInputOff.isGameActive = true ∧
    sInputOff.playerPos = 1 ∧
    (onPoseDetected "Left" sInputOff).playerPos = 0 := by decide

lemma addScore_score (points : Nat) (s : GameState) :
    (addScore points s).score = s.score + points := by
  unfold addScore startBossFight
  dsimp only
  split_ifs <;> rfl

lemma addScore_isGameActive (points : Nat) (s : GameState) :
    (addScore points s).isGameActive = s.isGameActive := by
  unfold addScore startBossFight
  dsimp only
  split_ifs <;> rfl

lemma addScore_items (points : Nat) (s : GameState) :
    (addScore points s).items = s.items := by
  unfold addScore startBossFight
  dsimp only
  split_ifs <;> rfl

/-- Claim C4 (amended): `addScore` keeps `level = floor(score/1000) + 1`
and never lowers the level; on a raise it resets the bomb counter and the
countdown once, and applies the `baseSpeed`/`spawnRate` adjustments once
per call — not once per level gained. -/
theorem addScore_level_once (s : GameState) (points : Nat)
    (hlev : s.level = s.score / 1000 + 1) :
    (addScore points s).score = s.score + points ∧
    (addScore points s).level = (s.score + points) / 1000 + 1 ∧
    s.level ≤ (addScore points s).level ∧
    (s.level < (addScore points s).level →
      (addScore points s).bombsSpawnedInLevel = 0 ∧
      (addScore points s).timeLimit = 60 ∧
      ((addScore points s).level ≤ 9 →
        (addScore points s).baseSpeed = s.baseSpeed + 1 ∧
        (addScore points s).spawnRate =
          (if s.isBossActive = false ∧ 500 < s.spawnRate then s.spawnRate - 100
           else s.spawnRate))) := by
  have hmono : s.score / 1000 ≤ (s.score + points) / 1000 :=
    Nat.div_le_div_right (Nat.le_add_right _ _)
  unfold addScore startBossFight
  dsimp only
  split_ifs with h1 h2 h3 h4 h5 h6 h7 h8 h9 h10 <;>
    simp_all <;> omega

/-- Witness for `addScore_level_once`: a 1000-point award on a fresh
session reaches level 2 and resets the countdown. -/
theorem addScore_level_once_witness :
    (addScore 1000 startedState).level = 2 ∧
    (addScore 1000 startedState).timeLimit = 60 := by
  have h := addScore_level_once startedState 1000 (by decide)
  exact ⟨h.2.1.trans (by decide), (h.2.2.2 (by decide)).2.1⟩

/-- Claim C1 (amended): `stop()` marks the session inactive and cancels the
countdown interval and the animation loop (a later 1 Hz tick is a no-op),
but it leaves the weapon-duration timeout, any in-flight bullet timeout and
a pending boss-start timeout scheduled, and firing a surviving gun timeout
still clears `gun.active` on the stopped session. -/
theorem stop_cancels_loop_and_countdown_only (s : GameState) (reason : String)
    (v : Bool) (ha : s.isGameActive = true) :
    (stop reason v s).isGameActive = false ∧
    (stop reason v s).gameTimerOn = false ∧
    (stop reason v s).loopOn = false ∧
    tick1Hz (stop reason v s) = stop reason v s ∧
    (stop reason v s).pendingGunOffs = s.pendingGunOffs ∧
    (stop reason v s).pendingBullets = s.pendingBullets ∧
    (stop reason v s).pendingBossStart = s.pendingBossStart ∧
    (∀ d, d ∈ (stop reason v s).pendingGunOffs →
      (fireGunOff d (stop reason v s)).gunActive = false ∧
      (fireGunOff d (stop reason v s)).isGameActive = false) := by
  have hs : stop reason v s =
      { s with isGameActive := false, gameTimerOn := false, loopOn := false,
               handlerOn := false,
               events := s.events ++ [GEvent.feedback reason,
                                      GEvent.gameEnd s.score s.level v] } := by
    unfold stop
    rw [if_neg (by simp [ha])]
  rw [hs]
  refine ⟨rfl, rfl, rfl, ?_, rfl, rfl, rfl, ?_⟩
  · unfold tick1Hz
    rw [if_pos rfl]
  · intro d hd
    unfold fireGunOff pushFeedback
    rw [if_pos hd]
    exact ⟨rfl, rfl⟩

/-- Witness for `stop_cancels_loop_and_countdown_only`: stopping the
gun-session run leaves the 10 s timeout scheduled and firing it clears
`gunActive` on the stopped session. -/
theorem stop_cancels_loop_and_countdown_only_witness :
    (stop "Stopped" false runGun4).isGameActive = false ∧
    (stop "Stopped" false runGun4).pendingGunOffs = runGun4.pendingGunOffs ∧
    (fireGunOff 10000 (stop "Stopped" false runGun4)).gunActive = false := by
  have h := stop_cancels_loop_and_countdown_only runGun4 "Stopped" false (by decide)
  exact ⟨h.1, h.2.2.2.2.1, (h.2.2.2.2.2.2.2 10000 (by decide)).1⟩

/-- Claim C3: a bomb colliding on an active session ends it with a loss
whose reason contains "bomb" when the gun is inactive and the session not
invincible; is destroyed for 200 points with the session staying active
when the gun is active (and the session not invincible); and is destroyed
harmlessly for 0 points while invincible. -/
theorem bomb_collision_cases (s : GameState) (i : Nat) (item : Item)
    (hget : s.items.get? i = some item) (hty : item.type = ItemType.bomb)
    (hact : s.isGameActive = true) :
    (s.gunActive = false → s.isInvincible = false →
      (handleCollisionAt i s).isGameActive = false ∧
      (handleCollisionAt i s).score = s.score ∧
      (handleCollisionAt i s).events =
        s.events ++ [GEvent.feedback "BOMB! Game Over",
                     GEvent.gameEnd s.score s.level false] ∧
      containsWord "bomb" "BOMB! Game Over" = true) ∧
    (s.gunActive = true → s.isInvincible = false →
      (handleCollisionAt i s).score = s.score + 200 ∧
      (handleCollisionAt i s).isGameActive = true ∧
      (handleCollisionAt i s).items = s.items.eraseIdx i) ∧
    (s.isInvincible = true →
      (handleCollisionAt i s).score = s.score ∧
      (handleCollisionAt i s).isGameActive = true ∧
      (handleCollisionAt i s).items = s.items.eraseIdx i) := by
  unfold handleCollisionAt
  rw [hget]
  dsimp only
  have hnr : ¬ item.type = ItemType.rocket := by simp [hty]
  refine ⟨?_, ?_, ?_⟩
  · intro hg hv
    rw [if_neg hnr, if_pos ⟨hty, hg, hv⟩]
    unfold stop
    rw [if_neg (by simp [hact])]
    exact ⟨rfl, rfl, rfl, by decide⟩
  · intro hg hv
    rw [if_neg hnr, if_neg (by simp [hg]), if_neg (by simp [hv])]
    rw [if_pos ⟨hty, hg⟩]
    exact ⟨addScore_score 200 _, by rw [addScore_isGameActive]; exact hact,
           addScore_items 200 _⟩
  · intro hv
    by_cases hg : s.gunActive = false
    · rw [if_neg hnr, if_neg (by simp [hv]), if_pos ⟨hty, hv⟩]
      exact ⟨rfl, hact, rfl⟩
    · rw [if_neg hnr, if_neg (by simp [hg]), if_pos ⟨hty, hv⟩]
      exact ⟨rfl, hact, rfl⟩

/-- Witness for `bomb_collision_cases`: the loss branch on `sBombHit` and
the 200-point branch on `sBombHitGun`. -/
theorem bomb_collision_cases_witness :
    (handleCollisionAt 0 sBombHit).isGameActive = false ∧
    (handleCollisionAt 0 sBombHitGun).score = sBombHitGun.score + 200 := by
  have h1 := (bomb_collision_cases sBombHit 0 sBombHit.items[0] rfl rfl rfl).1 rfl rfl
  have h2 := (bomb_collision_cases sBombHitGun 0 sBombHitGun.items[0] rfl rfl rfl).2.1 rfl rfl
  exact ⟨h1.1, h2.1⟩

/-- Claim C9: when a bomb collides while the session is invincible and the
gun is active, the invincibility branch wins — the bomb is removed with no
score change; the 200-point award is reserved for collisions with the gun
active and the session not invincible. -/
theorem bomb_invincible_precedence (s : GameState) (i : Nat) (item : Item)
    (hget : s.items.get? i = some item) (hty : item.type = ItemType.bomb)
    (hinv : s.isInvincible = true) (hgun : s.gunActive = true) :
    (handleCollisionAt i s).score = s.score ∧
    (handleCollisionAt i s).isGameActive = s.isGameActive ∧
    (handleCollisionAt i s).items = s.items.eraseIdx i ∧
    (handleCollisionAt i s).events = s.events ++ [GEvent.feedback "🛡️ BLOCKED!"] ∧
    (∀ t : GameState, ∀ j : Nat, ∀ itm : Item, t.items.get? j = some itm →
      itm.type = ItemType.bomb → t.gunActive = true → t.isInvincible = false →
      (handleCollisionAt j t).score = t.score + 200) := by
  unfold handleCollisionAt
  rw [hget]
  dsimp only
  have hnr : ¬ item.type = ItemType.rocket := by simp [hty]
  rw [if_neg hnr, if_neg (by simp [hgun]), if_pos ⟨hty, hinv⟩]
  refine ⟨rfl, rfl, rfl, rfl, ?_⟩
  intro t j itm hget' hty' hg' hv'
  rw [hget']
  dsimp only
  have hnr' : ¬ itm.type = ItemType.rocket := by simp [hty']
  rw [if_neg hnr', if_neg (by simp [hg']), if_neg (by simp [hv']),
      if_pos ⟨hty', hg'⟩]
  exact addScore_score 200 _

/-- Witness for `bomb_invincible_precedence`: the invincible-and-gun state
loses no points and stays active, while the gun-only state gains 200. -/
theorem bomb_invincible_precedence_witness :
    (handleCollisionAt 0 sBombHitInv).score = sBombHitInv.score ∧
    (handleCollisionAt 0 sBombHitInv).isGameActive = sBombHitInv.isGameActive ∧
    (handleCollisionAt 0 sBombHitGun).score = sBombHitGun.score + 200 := by
  have h := bomb_invincible_precedence sBombHitInv 0 sBombHitInv.items[0] rfl rfl rfl rfl
  exact ⟨h.1, h.2.1, h.2.2.2.2 sBombHitGun 0 sBombHitGun.items[0] rfl rfl rfl rfl⟩

/-- Claim C5 (amended): the guarded keyboard entry point for the weapon is
idempotent-safe — a W press while the gun is already active, or without
ownership and dev override, changes nothing, and a successful use consumes
`hasGun` (without the dev override) and arms the 10-second timer. (The raw
`activateGun`, as the AI invokes it, is shown unguarded by the
counterexample.) -/
theorem weapon_key_guarded (s : GameState) (now : Nat) :
    (s.gunActive = true → handleKey "w" now s = s) ∧
    (s.hasGun = false → s.devGunMode = false → handleKey "w" now s = s) ∧
    (s.handlerOn = true → s.isGameActive = true → s.isInputEnabled = true →
      s.gunActive = false → s.hasGun = true → s.devGunMode = false →
      (handleKey "w" now s).gunActive = true ∧
      (handleKey "w" now s).hasGun = false ∧
      (handleKey "w" now s).gunTimer = some (now + 10000)) := by
  have hwa : ¬ (toLowerCase "w" = "a" ∨ toLowerCase "w" = "ㅁ") := by decide
  have hws : ¬ (toLowerCase "w" = "s" ∨ toLowerCase "w" = "ㄴ") := by decide
  have hwd : ¬ (toLowerCase "w" = "d" ∨ toLowerCase "w" = "ㅇ") := by decide
  refine ⟨?_, ?_, ?_⟩
  · intro hga
    have hcan : ¬ (("w" = "w" ∨ "w" = "W" ∨ "w" = "ㅈ") ∧
        (s.hasGun = true ∨ s.devGunMode = true) ∧ s.gunActive = false) := by
      simp [hga]
    unfold handleKey
    by_cases hh : s.handlerOn = false
    · rw [if_pos hh]
    · rw [if_neg hh]
      by_cases hgd : s.isGameActive = false ∨ s.isInputEnabled = false
      · rw [if_pos hgd]
      · rw [if_neg hgd]
        dsimp only
        rw [if_neg hwa, if_neg hws, if_neg hwd]
        rw [if_neg (by simp)]
        rw [if_neg hcan]
  · intro hhg hdev
    have hcan : ¬ (("w" = "w" ∨ "w" = "W" ∨ "w" = "ㅈ") ∧
        (s.hasGun = true ∨ s.devGunMode = true) ∧ s.gunActive = false) := by
      simp [hhg, hdev]
    unfold handleKey
    by_cases hh : s.handlerOn = false
    · rw [if_pos hh]
    · rw [if_neg hh]
      by_cases hgd : s.isGameActive = false ∨ s.isInputEnabled = false
      · rw [if_pos hgd]
      · rw [if_neg hgd]
        dsimp only
        rw [if_neg hwa, if_neg hws, if_neg hwd]
        rw [if_neg (by simp)]
        rw [if_neg hcan]
  · intro hh hact hie hga hhg hdev
    have hg1 : ¬ s.handlerOn = false := by simp [hh]
    have hg2 : ¬ (s.isGameActive = false ∨ s.isInputEnabled = false) := by
      simp [hact, hie]
    have hcan : ("w" = "w" ∨ "w" = "W" ∨ "w" = "ㅈ") ∧
        (s.hasGun = true ∨ s.devGunMode = true) ∧ s.gunActive = false :=
      ⟨Or.inl rfl, Or.inl hhg, hga⟩
    have hdev' : (activateGun now s).devGunMode = false := by
      unfold activateGun pushFeedback
      rcases hgt : s.gunTimer with _ | d <;> simp [hgt] <;> exact hdev
    have hfields : (activateGun now s).gunActive = true ∧
        (activateGun now s).gunTimer = some (now + 10000) := by
      unfold activateGun pushFeedback
      rcases hgt : s.gunTimer with _ | d <;> simp [hgt]
    unfold handleKey
    rw [if_neg hg1, if_neg hg2]
    dsimp only
    rw [if_pos hcan, if_pos hdev']
    rw [if_neg hwa, if_neg hws, if_neg hwd]
    rw [if_neg (by simp)]
    exact ⟨hfields.1, rfl, hfields.2⟩

/-- Witness for `weapon_key_guarded`: a W press on the already-active gun
state is a no-op, and a first W press on the fresh gun-reward session
activates and consumes the gun. -/
theorem weapon_key_guarded_witness :
    handleKey "w" 0 sAiGun = sAiGun ∧
    (handleKey "w" 5 runGun1).gunActive = true ∧
    (handleKey "w" 5 runGun1).hasGun = false := by
  have h1 := (weapon_key_guarded sAiGun 0).1 (by decide)
  have h2 := (weapon_key_guarded runGun1 5).2.2 (by decide) (by decide) (by decide)
    (by decide) (by decide) (by decide)
  exact ⟨h1, h2.1, h2.2.1⟩

/-- Claim C8 (amended): the pose path is ignored while the session is
inactive, and otherwise sets the lane to the decoded label (unrecognized
labels decode to the current lane, so they leave it unchanged); only the
keyboard path consults `isInputEnabled`. -/
theorem pose_input_behavior (s : GameState) (label : String) :
    (s.isGameActive = false → onPoseDetected label s = s) ∧
    (s.isGameActive = true →
      (onPoseDetected label s).playerPos = poseTarget label s.playerPos) ∧
    (poseTarget label s.playerPos = s.playerPos → onPoseDetected label s = s) ∧
    (∀ key : String, ∀ now : Nat, s.isInputEnabled = false →
      (handleKey key now s).playerPos = s.playerPos) := by
  refine ⟨?_, ?_, ?_, ?_⟩
  · intro h
    unfold onPoseDetected
    rw [if_pos h]
  · intro h
    unfold onPoseDetected
    rw [if_neg (by simp [h])]
    by_cases ht : poseTarget label s.playerPos ≠ s.playerPos
    · rw [if_pos ht]
    · rw [if_neg ht]
      exact (not_ne_iff.mp ht).symm
  · intro h
    unfold onPoseDetected
    by_cases ha : s.isGameActive = false
    · rw [if_pos ha]
    · rw [if_neg ha, if_neg (by simp [h])]
  · intro key now hie
    unfold handleKey
    by_cases hh : s.handlerOn = false
    · rw [if_pos hh]
    · rw [if_neg hh, if_pos (Or.inr hie)]

/-- Witness for `pose_input_behavior`: on the input-disabled session a
recognized pose still moves the lane while the keyboard lane key is
ignored. -/
theorem pose_input_behavior_witness :
    (onPoseDetected "Right" sInputOff).playerPos =
      poseTarget "Right" sInputOff.playerPos ∧
    (handleKey "a" 0 sInputOff).playerPos = sInputOff.playerPos := by
  have h := pose_input_behavior sInputOff "Right"
  exact ⟨h.2.1 (by decide), h.2.2.2 "a" 0 (by decide)⟩


lemma mem_insertDesc {x a : Item} : ∀ {l : List Item},
    a ∈ insertDesc x l ↔ a = x ∨ a ∈ l := by
  intro l
  induction l with
  | nil => simp [insertDesc]
  | cons y ys ih =>
    by_cases h : y.y ≤ x.y
    · simp [insertDesc, h]
    · simp only [insertDesc, if_neg h, List.mem_cons, ih]
      tauto

lemma pairwise_insertDesc {x : Item} : ∀ {l : List Item},
    l.Pairwise (fun a b => b.y ≤ a.y) →
    (insertDesc x l).Pairwise (fun a b => b.y ≤ a.y) := by
  intro l
  induction l with
  | nil => intro _; simp [insertDesc]
  | cons y ys ih =>
    intro h
    rcases List.pairwise_cons.mp h with ⟨hy, hys⟩
    by_cases hxy : y.y ≤ x.y
    · simp only [insertDesc, if_pos hxy]
      refine List.pairwise_cons.mpr ⟨?_, h⟩
      intro b hb
      rcases List.mem_cons.mp hb with rfl | hb'
      · exact hxy
      · exact le_trans (hy b hb') hxy
    · simp only [insertDesc, if_neg hxy]
      refine List.pairwise_cons.mpr ⟨?_, ih hys⟩
      intro b hb
      rcases mem_insertDesc.mp hb with rfl | hb'
      · exact le_of_lt (lt_of_not_le hxy)
      · exact hy b hb'

lemma pairwise_sortDesc : ∀ l : List Item,
    (sortDesc l).Pairwise (fun a b => b.y ≤ a.y) := by
  intro l
  induction l with
  | nil => simp [sortDesc]
  | cons x xs ih =>
    simp only [sortDesc]
    exact pairwise_insertDesc ih

lemma find?_insertDesc (p : Item → Bool) (x : Item) :
    ∀ l : List Item, l.Pairwise (fun a b => b.y ≤ a.y) →
      (insertDesc x l).find? p =
        (match l.find? p with
         | none => if p x then some x else none
         | some z => if z.y ≤ x.y then (if p x then some x else some z) else some z) := by
  intro l
  induction l with
  | nil =>
    intro _
    cases hpx : p x <;> simp [insertDesc, List.find?, hpx]
  | cons y ys ih =>
    intro h
    rcases List.pairwise_cons.mp h with ⟨hy, hys⟩
    by_cases hxy : y.y ≤ x.y
    · simp only [insertDesc, if_pos hxy]
      cases hpx : p x
      · rw [List.find?_cons_of_neg _ (by simp [hpx])]
        cases hf : List.find? p (y :: ys) <;> simp [hpx]
      · rw [List.find?_cons_of_pos _ (by simp [hpx])]
        cases hf : List.find? p (y :: ys) with
        | none => simp [hpx]
        | some z =>
          have hz : z ∈ y :: ys := List.mem_of_find?_eq_some hf
          have hzy : z.y ≤ y.y := by
            rcases List.mem_cons.mp hz with rfl | hz'
            · exact le_refl _
            · exact hy z hz'
          simp [hpx, le_trans hzy hxy]
    · simp only [insertDesc, if_neg hxy]
      cases hpy : p y
      · rw [List.find?_cons_of_neg _ (by simp [hpy]),
            List.find?_cons_of_neg _ (by simp [hpy])]
        exact ih hys
      · rw [List.find?_cons_of_pos _ (by simp [hpy]),
            List.find?_cons_of_pos _ (by simp [hpy])]
        simp [hxy]

lemma find?_sortDesc (p : Item → Bool) : ∀ l : List Item,
    (sortDesc l).find? p = firstMaxY (l.filter p) := by
  intro l
  induction l with
  | nil => rfl
  | cons x xs ih =>
    simp only [sortDesc]
    rw [find?_insertDesc p x (sortDesc xs) (pairwise_sortDesc xs), ih]
    cases hpx : p x
    · rw [List.filter_cons_of_neg (by simp [hpx])]
      cases hf : firstMaxY (xs.filter p) <;> simp [hpx]
    · rw [List.filter_cons_of_pos (by simp [hpx])]
      simp only [firstMaxY]
      cases hf : firstMaxY (xs.filter p) with
      | none => simp [hpx]
      | some z =>
        rcases le_or_lt z.y x.y with hle | hlt
        · simp [hpx, hle, not_lt.mpr hle]
        · simp [hpx, hlt, not_le.mpr hlt]

lemma laneScore_eq (s : GameState) (lane : Nat) :
    laneScoreOf (aiWindow s) lane = specLaneScore s.items lane := by
  unfold laneScoreOf aiWindow specLaneScore specWindow
  rw [find?_sortDesc]
  have hfil : s.items.filter (fun it => decide (it.y < 420 ∧ 0 < it.y)) =
      s.items.filter (fun it => decide (0 < it.y ∧ it.y < 420)) := by
    apply List.filter_congr
    intro it _
    simp [and_comm]
  rw [hfil]

lemma sortScores_head (a b c : Int) :
    (sortScoresDesc [(0, a), (1, b), (2, c)]).headD (0, 0) =
      (if b ≤ a ∧ c ≤ a then ((0 : Nat), a)
       else if c ≤ b then (1, b) else (2, c)) := by
  rcases le_or_lt c b with h1 | h1 <;> rcases le_or_lt b a with h2 | h2 <;>
    rcases le_or_lt c a with h3 | h3
  · simp [sortScoresDesc, insertScoreDesc, if_pos h1, if_pos h2, if_pos h3,
          if_pos (show b ≤ a ∧ c ≤ a from ⟨h2, h3⟩)]
  · exact absurd (le_trans h1 h2) (not_le.mpr h3)
  · simp [sortScoresDesc, insertScoreDesc, if_pos h1, if_neg (not_le.mpr h2),
          if_pos h3,
          if_neg (show ¬ (b ≤ a ∧ c ≤ a) from fun hc => absurd hc.1 (not_le.mpr h2))]
  · simp [sortScoresDesc, insertScoreDesc, if_pos h1, if_neg (not_le.mpr h2),
          if_neg (not_le.mpr h3),
          if_neg (show ¬ (b ≤ a ∧ c ≤ a) from fun hc => absurd hc.1 (not_le.mpr h2))]
  · simp [sortScoresDesc, insertScoreDesc, if_neg (not_le.mpr h1), if_pos h2,
          if_pos h3, if_pos (show b ≤ a ∧ c ≤ a from ⟨h2, h3⟩)]
  · simp [sortScoresDesc, insertScoreDesc, if_neg (not_le.mpr h1), if_pos h2,
          if_neg (not_le.mpr h3),
          if_neg (show ¬ (b ≤ a ∧ c ≤ a) from fun hc => absurd hc.2 (not_le.mpr h3))]
  · exact absurd (le_trans h3 (le_of_lt h2)) (not_le.mpr h1)
  · simp [sortScoresDesc, insertScoreDesc, if_neg (not_le.mpr h1),
          if_neg (not_le.mpr h2), if_neg (not_le.mpr h3),
          if_neg (show ¬ (b ≤ a ∧ c ≤ a) from fun hc => absurd hc.2 (not_le.mpr h3))]

lemma aiBest_eq (s : GameState) :
    aiBest s = (specBestLane s.items,
                specLaneScore s.items (specBestLane s.items)) := by
  unfold aiBest
  simp only [List.map_cons, List.map_nil]
  rw [laneScore_eq, laneScore_eq, laneScore_eq, sortScores_head]
  unfold specBestLane
  split_ifs <;> rfl

lemma moveTo_playerPos (lane : Nat) (s : GameState) :
    (moveTo lane s).playerPos = lane := by
  unfold moveTo
  split_ifs with h
  · rfl
  · exact not_ne_iff.mp h

lemma activateGun_playerPos (now : Nat) (s : GameState) :
    (activateGun now s).playerPos = s.playerPos := by
  unfold activateGun pushFeedback
  rcases hgt : s.gunTimer with _ | d <;> simp [hgt]

lemma aiGun_playerPos (d : Difficulty) (now : Nat) (s : GameState) :
    (aiGun d now s).playerPos = s.playerPos := by
  unfold aiGun
  dsimp only
  split_ifs <;> simp [activateGun_playerPos]

lemma aiGun_items (d : Difficulty) (now : Nat) (s : GameState) :
    (aiGun d now s).items = s.items := by
  have hgi : ∀ t : GameState, (activateGun now t).items = t.items := by
    intro t
    unfold activateGun pushFeedback
    rcases hgt : t.gunTimer with _ | dd <;> simp [hgt]
  unfold aiGun
  dsimp only
  split_ifs <;> simp [hgi]

/-- Claim C10: while the boss is active the spawn lane is a pure threshold
function of the boss position (below 33 → lane 0, below 66 → lane 1,
otherwise lane 2), unaffected by the random draw, and it is the lane of the
item `spawnItem` appends; when the boss is inactive the lane is
`floor(3 * r)` of the uniform draw `r`. -/
theorem spawn_lane_boss_deterministic (s : GameState) (b : BossEnt)
    (r₁ r₂ rt rf rj : ℚ) (hb : s.bossEntity = some b)
    (ha : s.isBossActive = true) :
    spawnLane s r₁ = (if b.x < 33 then 0 else if b.x < 66 then 1 else 2) ∧
    spawnLane s r₁ = spawnLane s r₂ ∧
    ((spawnItem r₁ rt rf rj s).items.getLast?).map Item.lane =
      some (spawnLane s r₁) ∧
    (∀ t : GameState, t.isBossActive = false → ∀ r : ℚ,
      spawnLane t r = (Int.floor (r * 3)).toNat) := by
  have h1 : spawnLane s r₁ = (if b.x < 33 then 0 else if b.x < 66 then 1 else 2) := by
    unfold spawnLane
    rw [hb]
    dsimp only
    rw [if_pos ha]
  refine ⟨h1, ?_, ?_, ?_⟩
  · rw [h1]
    unfold spawnLane
    rw [hb]
    dsimp only
    rw [if_pos ha]
  · unfold spawnItem
    dsimp only
    rw [List.getLast?_concat]
    rfl
  · intro t hf r
    unfold spawnLane jsRandLane
    rcases hbt : t.bossEntity with _ | bt
    · rfl
    · dsimp only
      rw [if_neg (by simp [hf])]

/-- Witness for `spawn_lane_boss_deterministic`: with the boss at x = 50
the spawn lane is the centre regardless of the draw, and the appended item
records it. -/
theorem spawn_lane_boss_deterministic_witness :
    spawnLane sBossMid (9 / 10) = 1 ∧
    spawnLane sBossMid (9 / 10) = spawnLane sBossMid 0 ∧
    ((spawnItem (9 / 10) 0 0 0 sBossMid).items.getLast?).map Item.lane =
      some (spawnLane sBossMid (9 / 10)) := by
  have h := spawn_lane_boss_deterministic sBossMid bossInit (9 / 10) 0 0 0 0 rfl rfl
  exact ⟨h.1.trans (by decide), h.2.1, h.2.2.1⟩

/-- Claim C6 (amended): with an errorRate-0 difficulty on an active session
`decideMove` scores the three lanes over the reachable window (empty 0,
bomb -1000, rocket +500, fruit its value, judged on the nearest item, ties
toward the lowest lane index) and moves to the best-scoring lane — except
that it stays in place when the best score is below -500, and when the
window is empty it stays in place (hell recenters to lane 1). -/
theorem decideMove_best_lane (d : Difficulty) (now : Nat) (rErr rLane : ℚ)
    (s : GameState) (hd : errorRate d = 0) (ha : s.isGameActive = true)
    (hr : 0 ≤ rErr) :
    (aiWindow s ≠ [] → -500 ≤ specLaneScore s.items (specBestLane s.items) →
      (decideMove d now rErr rLane s).playerPos = specBestLane s.items) ∧
    (aiWindow s ≠ [] → specLaneScore s.items (specBestLane s.items) < -500 →
      (decideMove d now rErr rLane s).playerPos = s.playerPos) ∧
    (aiWindow s = [] →
      (decideMove d now rErr rLane s).playerPos =
        (if d = Difficulty.hell then 1 else s.playerPos)) := by
  have hna : ¬ s.isGameActive = false := by simp [ha]
  have hwin1 : aiWindow (aiInvinc d s) = aiWindow s := rfl
  have hplayer1 : (aiInvinc d s).playerPos = s.playerPos := rfl
  have hbest : aiBest (aiInvinc d s) =
      (specBestLane s.items, specLaneScore s.items (specBestLane s.items)) :=
    aiBest_eq (aiInvinc d s)
  have herr : ¬ ((aiInvinc d s).isInvincible = false ∧ rErr < errorRate d) := by
    rintro ⟨-, hlt⟩
    rw [hd] at hlt
    exact absurd hlt (not_lt.mpr hr)
  unfold decideMove
  rw [if_neg hna]
  by_cases hw : aiWindow s = []
  · have hlen : (aiWindow (aiInvinc d s)).length = 0 := by rw [hwin1, hw]; rfl
    rw [if_pos hlen]
    refine ⟨fun hne _ => absurd hw hne, fun hne _ => absurd hw hne, fun _ => ?_⟩
    by_cases hh : d = Difficulty.hell
    · rw [if_pos hh, if_pos hh, moveTo_playerPos]
    · rw [if_neg hh, if_neg hh]
      exact hplayer1
  · have hlen : ¬ (aiWindow (aiInvinc d s)).length = 0 := by
      rw [hwin1]
      simpa using hw
    rw [if_neg hlen]
    refine ⟨fun _ hge => ?_, fun _ hlt => ?_, fun hemp => absurd hemp hw⟩
    · rw [moveTo_playerPos]
      unfold aiTarget
      rw [if_neg herr, hbest]
      dsimp only
      rw [if_neg (not_lt.mpr hge)]
    · rw [moveTo_playerPos]
      unfold aiTarget
      rw [if_neg herr, hbest]
      dsimp only
      rw [if_pos hlt]
      exact hplayer1

/-- Witness for `decideMove_best_lane` (Scenario D): a bomb in lane 0, a
300-point fruit in lane 1, lane 2 empty — `decideMove` on hard moves to the
fruit lane, which is the spec-best lane. -/
theorem decideMove_best_lane_witness :
    (decideMove Difficulty.hard 0 0 0 sScenarioD).playerPos = 1 ∧
    specBestLane sScenarioD.items = 1 := by
  have h := (decideMove_best_lane Difficulty.hard 0 0 0 sScenarioD rfl rfl
    le_rfl).1 (by decide) (by decide)
  exact ⟨h.trans (by decide), by decide⟩

lemma bossInv_init : BossInv bossInit := by
  unfold BossInv bossInit
  norm_num

lemma bossInv_step {b : BossEnt} (h : BossInv b) : BossInv (moveBoss b) := by
  obtain ⟨h1, h2, h3, h4, h5⟩ := h
  unfold BossInv moveBoss
  dsimp only
  rcases h5 with hd | hd <;> rw [hd]
  · have hx90 : b.x ≤ 90 := by
      by_contra hgt
      push_neg at hgt
      have hcon := h3 hgt
      rw [hd] at hcon
      norm_num at hcon
    push_cast
    rcases le_or_lt (b.x + 1 * (1 / 2)) 90 with hle | hgt
    · rw [if_neg (by push_neg; constructor <;> linarith)]
      exact ⟨by linarith, by linarith, fun hc => absurd hc (not_lt.mpr hle),
             fun hc => absurd hc (by push_neg; linarith), Or.inl rfl⟩
    · rw [if_pos (Or.inl hgt)]
      exact ⟨by linarith, by linarith, fun _ => rfl,
             fun hc => absurd hc (by push_neg; linarith), Or.inr rfl⟩
  · have hx10 : 10 ≤ b.x := by
      by_contra hlt
      push_neg at hlt
      have hcon := h4 hlt
      rw [hd] at hcon
      norm_num at hcon
    push_cast
    rcases lt_or_le (b.x + -1 * (1 / 2)) 10 with hlt | hge
    · rw [if_pos (Or.inr hlt)]
      exact ⟨by linarith, by linarith,
             fun hc => absurd hc (by push_neg; linarith),
             fun _ => by norm_num, Or.inl (by norm_num)⟩
    · rw [if_neg (by push_neg; constructor <;> linarith)]
      exact ⟨by linarith, by linarith,
             fun hc => absurd hc (by push_neg; linarith),
             fun hc => absurd hc (not_lt.mpr hge), Or.inr rfl⟩

lemma bossInv_iter : ∀ n : Nat, BossInv (moveBoss^[n] bossInit)
  | 0 => bossInv_init
  | n + 1 => by
    rw [Function.iterate_succ_apply']
    exact bossInv_step (bossInv_iter n)

/-- Claim C7 (amended): every state of the boss walk reachable from its
creation point stays within [9.5, 90.5] (it can overshoot the [10, 90] band
by half a step before bouncing); each `move()` adds `direction * 0.5` and
flips the direction exactly when the new position has left (10, 90). -/
theorem boss_position_bounds :
    (∀ n : Nat, 19 / 2 ≤ (moveBoss^[n] bossInit).x ∧
      (moveBoss^[n] bossInit).x ≤ 181 / 2) ∧
    (∀ b : BossEnt, (moveBoss b).x = b.x + (b.direction : ℚ) * (1 / 2) ∧
      ((moveBoss b).x ≤ 90 → 10 ≤ (moveBoss b).x →
        (moveBoss b).direction = b.direction) ∧
      (90 < (moveBoss b).x → (moveBoss b).direction = -b.direction) ∧
      ((moveBoss b).x < 10 → (moveBoss b).direction = -b.direction)) := by
  constructor
  · intro n
    have h := bossInv_iter n
    exact ⟨h.1, h.2.1⟩
  · intro b
    unfold moveBoss
    dsimp only
    refine ⟨rfl, ?_, ?_, ?_⟩
    · intro hle hge
      rw [if_neg (by push_neg; exact ⟨hle, hge⟩)]
    · intro hgt
      rw [if_pos (Or.inl hgt)]
    · intro hlt
      rw [if_pos (Or.inr hlt)]

/-- Witness for `boss_position_bounds`: the bounds at step 81 (the first
overshoot) and the unchanged direction on the very first in-band step. -/
theorem boss_position_bounds_witness :
    19 / 2 ≤ (moveBoss^[81] bossInit).x ∧
    (moveBoss^[81] bossInit).x ≤ 181 / 2 ∧
    (moveBoss bossInit).direction = bossInit.direction := by
  refine ⟨(boss_position_bounds.1 81).1, (boss_position_bounds.1 81).2, ?_⟩
  exact (boss_position_bounds.2 bossInit).2.1 (by decide) (by decide)


end Engine
